import Mathlib

/-!
A shallow embedding, in Lean 4, of the core logic of the
Disaster-Response-Coordination-Platform repository (a Node/Express CRUD API):
the cache-through store (src/utils/cache.js), the mutation route handlers for
disasters and resources (src/routes/disasters.js, src/routes/resources.js),
the in-process geospatial fallback filter (src/routes/resources.js), the
keyword priority classifier (src/routes/socialMedia.js), and the image
verification pipeline (src/routes/verification.js).

JavaScript strings are modelled as Lean `String` (a list of characters in this
toolchain); `String.prototype.includes` is substring containment,
`toLowerCase` is a per-character ASCII lowering (the two agree on all inputs
appearing here).  Timestamps (`Date.now()`, ISO date comparisons) are integer
milliseconds.  JavaScript numbers appearing in the embedded logic are exact
rationals or integers; the registered caveats are noted at each definition.
Asynchronous store and network calls are modelled by passing their outcome
(success value or failure) as an explicit argument, which is exactly the
information the `try`/`catch` structure of each handler branches on.
-/

/-! ## JavaScript string primitives -/

/-- One character of `String.prototype.toLowerCase`.  The source applies
Unicode lowering; every keyword and witness in this development is ASCII,
where the two coincide. -/
def jsToLowerChar (c : Char) : Char := Char.toLower c

/-- `String.prototype.toLowerCase`. -/
def jsToLower (s : String) : String := ⟨s.data.map jsToLowerChar⟩

/-- Does `hay` start with `needle` (character lists)? -/
def charListStartsWith : List Char → List Char → Bool
  | _, [] => true
  | [], _ :: _ => false
  | a :: as, b :: bs => a = b && charListStartsWith as bs

/-- Substring containment on character lists. -/
def charListIncludes : List Char → List Char → Bool
  | [], needle => needle.isEmpty
  | h :: t, needle => charListStartsWith (h :: t) needle || charListIncludes t needle

/-- `String.prototype.includes`: `jsIncludes s sub` is `s.includes(sub)`. -/
def jsIncludes (s sub : String) : Bool := charListIncludes s.data sub.data

/-- JavaScript truthiness of a possibly-absent string field
(`undefined`, `null` and `""` are falsy). -/
def jsTruthy : Option String → Bool
  | none => false
  | some s => !(s = "")

/-- Interpret an integer as a 32-bit two-complement value (the `ToInt32`
conversion JavaScript applies to every bitwise operand). -/
def toInt32 (n : Int) : Int :=
  let m := n.emod 4294967296
  if m < 2147483648 then m else m - 4294967296

/-- JavaScript `v & 0xfffffff`.  Since `0xfffffff = 2 ^ 28 - 1` and
`2 ^ 28` divides `2 ^ 32`, masking the 32-bit pattern of `v` equals
`v mod 2 ^ 28`; the result is non-negative. -/
def and28 (v : Int) : Int := v.emod 268435456

/-! ## CacheService (src/utils/cache.js)

The Supabase `cache` table is modelled as a function from keys to optional
entries.  Each operation takes the current time and an explicit fault flag
standing for the underlying store query throwing or returning an error
object; `get` additionally takes a fault flag for the nested `delete` call
it performs on an expired entry (that call has its own `try`/`catch` and
returns `false` on failure, leaving the row in place). -/

/-- A row of the `cache` table: a JSON value plus the `expires_at`
timestamp (milliseconds). -/
structure CacheEntry (α : Type) where
  value : α
  expires_at : Int
deriving DecidableEq

/-- The state of the `cache` table. -/
abbrev CacheStore (α : Type) := String → Option (CacheEntry α)

namespace CacheService

/-- `CacheService.get(key)`: on a store error or a missing row return `null`;
on a row whose `expires_at` is strictly before `now` delete the row (when the
delete itself does not fault) and return `null`; otherwise return the stored
value.  Result: the returned value and the resulting table state. -/
def get {α : Type} (st : CacheStore α) (key : String) (now : Int)
    (storeFault deleteFault : Bool) : Option α × CacheStore α :=
  if storeFault then (none, st)
  else
    match st key with
    | none => (none, st)
    | some e =>
      if e.expires_at < now then
        (none, if deleteFault then st else fun k => if k = key then none else st k)
      else
        (some e.value, st)

/-- `CacheService.set(key, value, ttlSeconds)`: upsert the row with
`expires_at = now + ttl * 1000`.  The source computes
`ttl = ttlSeconds || defaultTTL`, so a missing or zero `ttlSeconds`
(both falsy) selects the default; `ttlSeconds = 0` encodes both.
Returns `true` on success, `false` when the store faulted (the error is
caught and swallowed). -/
def set {α : Type} (st : CacheStore α) (key : String) (value : α)
    (ttlSeconds defaultTTL : Nat) (now : Int) (storeFault : Bool) :
    Bool × CacheStore α :=
  if storeFault then (false, st)
  else
    let ttl := if ttlSeconds = 0 then defaultTTL else ttlSeconds
    let expiresAt := now + (ttl : Int) * 1000
    (true, fun k => if k = key then some ⟨value, expiresAt⟩ else st k)

end CacheService

/-! ## Mutation route handlers

Each Express handler is embedded as a pure function from the request fields
and the outcome of its Supabase call(s) to the HTTP status it sends, whether
its success body carries the mock-data marker message, and the list of
socket.io events it emits.  `io.emit(...)` is a global broadcast (topic
`none`); `io.to(room).emit(...)` is scoped to that room (topic `some room`). -/

/-- Outcome of one Supabase call as seen by the handler: either the data row,
or a thrown error / error object / missing row (the handlers treat these
uniformly in the branches modelled here). -/
inductive StoreResult (α : Type) where
  | ok (val : α)
  | fail
deriving DecidableEq

/-- One socket.io emission: optional room, event name, `action` tag. -/
structure EmittedEvent where
  topic : Option String
  event : String
  action : String
deriving DecidableEq

/-- What a mutation handler sends back: HTTP status, whether the success body
is the synthetic mock payload (marked by the mock-data `message` field), and
the events emitted while handling. -/
structure HandlerResponse where
  status : Nat
  synthetic : Bool
  events : List EmittedEvent
deriving DecidableEq

/-- An HTTP success status. -/
def isSuccess (s : Nat) : Prop := 200 ≤ s ∧ s < 300

instance (s : Nat) : Decidable (isSuccess s) := by
  unfold isSuccess; infer_instance

/-- The `owner_id` of the row fetched by the update handler before writing
(its `audit_trail` only feeds the response body, which is not asserted on). -/
structure DisasterOwnerInfo where
  owner_id : String
deriving DecidableEq

namespace DisasterRoutes

/-- POST /disasters (src/routes/disasters.js).  Missing or empty `title`,
`location_name` or `description` (falsy) gives 400 with no event; an insert
error gives the mock payload with 201 and one global `create` event; success
gives 201 and one global `create` event. -/
def postDisaster (title location_name description : Option String)
    (insert : StoreResult Unit) : HandlerResponse :=
  if !(jsTruthy title && jsTruthy location_name && jsTruthy description) then
    { status := 400, synthetic := false, events := [] }
  else
    match insert with
    | .fail =>
      { status := 201, synthetic := true
        events := [⟨none, "disaster_updated", "create"⟩] }
    | .ok _ =>
      { status := 201, synthetic := false
        events := [⟨none, "disaster_updated", "create"⟩] }

/-- PUT /disasters/:id.  Fetch failure or missing row gives 404; an owner
mismatch without the admin role gives 403; an update error gives 500 with no
event and no mock payload; success gives 200 and one global `update` event. -/
def putDisaster (fetched : StoreResult DisasterOwnerInfo)
    (userId userRole : String) (update : StoreResult Unit) : HandlerResponse :=
  match fetched with
  | .fail => { status := 404, synthetic := false, events := [] }
  | .ok existing =>
    if existing.owner_id ≠ userId ∧ userRole ≠ "admin" then
      { status := 403, synthetic := false, events := [] }
    else
      match update with
      | .fail => { status := 500, synthetic := false, events := [] }
      | .ok _ =>
        { status := 200, synthetic := false
          events := [⟨none, "disaster_updated", "update"⟩] }

/-- DELETE /disasters/:id.  A delete error gives 404 with no event; success
gives 200 and one global `delete` event. -/
def deleteDisaster (del : StoreResult Unit) : HandlerResponse :=
  match del with
  | .fail => { status := 404, synthetic := false, events := [] }
  | .ok _ =>
    { status := 200, synthetic := false
      events := [⟨none, "disaster_updated", "delete"⟩] }

end DisasterRoutes

namespace ResourceRoutes

/-- The request body of POST /disasters/:id/resources.  The handler
destructures only `name`, `location_name`, `type`, `capacity`, `contact`,
`amenities` and `location`; any `current_occupancy` or `status` supplied by
the client is never read.  `location` is a `{lat, lng}` pair. -/
structure ResourceBody where
  name : Option String
  location_name : Option String
  rtype : Option String
  capacity : Option Int
  contact : Option String
  amenities : Option (List String)
  location : Option (ℚ × ℚ)
  current_occupancy : Option Int
  status : Option String
deriving DecidableEq

/-- A resource row as the handler constructs it.  `location` is kept as a
`(lat, lng)` pair; the primary path serialises it as a PostGIS point and the
mock path as a GeoJSON point, a formatting difference with no bearing on the
asserted fields. -/
structure ResourceRow where
  disaster_id : String
  name : String
  location_name : String
  rtype : String
  capacity : Int
  current_occupancy : Int
  contact : String
  amenities : List String
  status : String
  created_by : String
  location : Option (ℚ × ℚ)
deriving DecidableEq

/-- The `newResource` object built by the handler (reached only after the
required-field check, so the `getD ""` defaults are never observed):
`current_occupancy` is the literal 0 and `status` the literal active,
whatever the body carried.  The source guards the location with
`location && location.lat && location.lng`, so a zero coordinate (falsy)
drops the point. -/
def buildNewResource (disasterId : String) (b : ResourceBody)
    (userId : String) : ResourceRow :=
  { disaster_id := disasterId
    name := b.name.getD ""
    location_name := b.location_name.getD ""
    rtype := b.rtype.getD ""
    capacity := b.capacity.getD 0
    current_occupancy := 0
    contact := b.contact.getD ""
    amenities := b.amenities.getD []
    status := "active"
    created_by := userId
    location :=
      match b.location with
      | some (lat, lng) => if lat ≠ 0 ∧ lng ≠ 0 then some (lat, lng) else none
      | none => none }

/-- POST /disasters/:id/resources.  Missing required fields give 400.  On a
successful insert: 201, the echoed row, and one `create` event scoped to the
disaster room.  On an insert error: 201 with the mock payload built from the
same `newResource` (spread, plus a random id, `created_at`, and the raw body
location) — and no event is emitted on this branch. -/
def postResource (disasterId : String) (b : ResourceBody) (userId : String)
    (insert : StoreResult Unit) : HandlerResponse × Option ResourceRow :=
  if !(jsTruthy b.name && jsTruthy b.location_name && jsTruthy b.rtype) then
    ({ status := 400, synthetic := false, events := [] }, none)
  else
    let row := buildNewResource disasterId b userId
    match insert with
    | .ok _ =>
      ({ status := 201, synthetic := false
         events := [⟨some ("disaster_" ++ disasterId), "resources_updated", "create"⟩] },
       some row)
    | .fail =>
      ({ status := 201, synthetic := true, events := [] },
       some { row with location := b.location })

/-- PUT /disasters/:id/resources/:resourceId.  An update error or missing
row gives 404 with no event; success gives 200 and one `update` event scoped
to the disaster room. -/
def putResource (update : StoreResult Unit) (disasterId : String) :
    HandlerResponse :=
  match update with
  | .fail => { status := 404, synthetic := false, events := [] }
  | .ok _ =>
    { status := 200, synthetic := false
      events := [⟨some ("disaster_" ++ disasterId), "resources_updated", "update"⟩] }

end ResourceRoutes

/-! ## Geospatial fallback filter (src/routes/resources.js)

`calculateDistance` computes the haversine great-circle distance with
IEEE-754 trigonometry; transcendental floating point has no shallow
embedding here, so the distance function is a parameter of the filter and
every theorem below holds for all distance functions, the haversine
included.  `filterResourcesByDistance` keeps each located resource whose
(unrounded) distance is at most the radius, stores the distance rounded to
two decimals on the item (`distance_km`), and sorts ascending by that
stored field.  `Array.prototype.sort` is stable, and a stable sort by a
fixed key has a unique result, so it is embedded as an insertion sort by
the same key. -/

/-- A resource as seen by the fallback filter: only its GeoJSON `location`
matters; `coordinates` are stored `[lng, lat]`, embedded as a pair whose
first component is the longitude. -/
structure GeoResource where
  id : String
  location : Option (ℚ × ℚ)
deriving DecidableEq

/-- `Math.round(d * 100) / 100`: the `distance_km` rounding.
`Math.round` rounds half towards positive infinity, as `round` does. -/
def round2 (d : ℚ) : ℚ := (round (d * 100) : ℤ) / 100

namespace ResourceRoutes

/-- The in-process fallback proximity filter.  `dist lat lng rLat rLng` is
the `calculateDistance` argument order of the source. -/
def filterResourcesByDistance (dist : ℚ → ℚ → ℚ → ℚ → ℚ)
    (resources : List GeoResource) (lat lng radiusKm : ℚ) :
    List (GeoResource × ℚ) :=
  List.insertionSort (fun u v : GeoResource × ℚ => u.2 ≤ v.2)
    (resources.filterMap (fun r =>
      match r.location with
      | none => none
      | some coords =>
        let d := dist lat lng coords.2 coords.1
        if d ≤ radiusKm then some (r, round2 d) else none))

end ResourceRoutes

/-! ## Priority classifier (src/routes/socialMedia.js) -/

namespace SocialMedia

def criticalKeywords : List String :=
  ["urgent", "emergency", "sos", "help", "trapped", "evacuation", "immediate"]

def highKeywords : List String :=
  ["breaking", "alert", "warning", "danger", "rescue"]

def normalKeywords : List String :=
  ["shelter", "food", "water", "medical", "assistance"]

/-- `determinePriority(content)`: lowercase the text, then return the first
tier whose keyword list has a substring hit, critical tier first. -/
def determinePriority (content : String) : String :=
  let lowerContent := jsToLower content
  if criticalKeywords.any (fun keyword => jsIncludes lowerContent keyword) then
    "critical"
  else if highKeywords.any (fun keyword => jsIncludes lowerContent keyword) then
    "high"
  else if normalKeywords.any (fun keyword => jsIncludes lowerContent keyword) then
    "normal"
  else
    "low"

end SocialMedia

/-! ## Image verification (src/routes/verification.js) -/

namespace Verification

/-- A structured verification result (the shape shared by the mock fixtures
and the parsed Gemini response).  The fixtures carry no `verified_at` or
`verification_method`; the former is overwritten at every use (0 below as
the fixture placeholder) and the latter is `none` on the mock path. -/
structure VerificationResult where
  image_url : String
  authenticity_score : ℚ
  status : String
  analysis : String
  confidence : String
  flags : List String
  detected_objects : List String
  context_match : Bool
  verified_at : Int
  verification_method : Option String
deriving DecidableEq

/-- First mock fixture. -/
def mockFixture0 : VerificationResult :=
  { image_url := "http://example.com/flood1.jpg"
    authenticity_score := 92 / 100
    status := "authentic"
    analysis := "Image shows genuine flood damage with consistent lighting and shadows. No signs of digital manipulation detected."
    confidence := "high"
    flags := []
    detected_objects := ["water", "buildings", "vehicles", "debris"]
    context_match := true
    verified_at := 0
    verification_method := none }

/-- Second mock fixture. -/
def mockFixture1 : VerificationResult :=
  { image_url := "http://example.com/flood2.jpg"
    authenticity_score := 45 / 100
    status := "suspicious"
    analysis := "Image shows inconsistent lighting and possible compositing artifacts. Water reflection does not match expected physics."
    confidence := "medium"
    flags := ["inconsistent_lighting", "possible_compositing"]
    detected_objects := ["water", "street", "cars"]
    context_match := false
    verified_at := 0
    verification_method := none }

/-- Third mock fixture. -/
def mockFixture2 : VerificationResult :=
  { image_url := "http://example.com/fire1.jpg"
    authenticity_score := 88 / 100
    status := "authentic"
    analysis := "Wildfire image appears genuine with natural smoke patterns and appropriate environmental context."
    confidence := "high"
    flags := []
    detected_objects := ["fire", "smoke", "trees", "buildings"]
    context_match := true
    verified_at := 0
    verification_method := none }

def mockVerificationResults : List VerificationResult :=
  [mockFixture0, mockFixture1, mockFixture2]

/-- The `charCodeAt`-based rolling hash of `getMockVerificationResult`:
`hash = ((hash << 5) - hash + code) & 0xfffffff` per character.  `charCodeAt`
yields UTF-16 code units, which agree with code points on the basic plane
(all inputs here).  The accumulator stays in `[0, 2 ^ 28)`, inside the exact
float range, so the subtraction and addition are exact. -/
def jsHash (s : String) : Int :=
  s.data.foldl (fun h ch => and28 (toInt32 (h * 32) - h + ch.toNat)) 0

/-- `getMockVerificationResult(imageUrl)`: pick a fixture by
`Math.abs(hash) % 3`, spread it, and overwrite `image_url` and
`verified_at`.  The `getD` default is unreachable (the index is below the
list length). -/
def getMockVerificationResult (imageUrl : String) (now : Int) :
    VerificationResult :=
  let hash := jsHash imageUrl
  let index := hash.natAbs % mockVerificationResults.length
  let base := mockVerificationResults.getD index mockFixture0
  { base with image_url := imageUrl, verified_at := now }

def commonObjects : List String :=
  ["water", "fire", "smoke", "building", "car", "tree", "person", "debris", "flood", "damage"]

def disasterKeywords : List String :=
  ["disaster", "emergency", "flood", "fire", "damage", "destruction", "evacuation"]

/-- `parseGeminiVerificationResponse(analysisText, imageUrl)`.  The source
extracts the score with the regex `authenticity.*?(\d+\.?\d*)` and
`parseFloat`, defaulting to 0.7 on no match; the extracted value is passed
in as `extractedScore` (the regex engine itself is not embedded; no theorem
below depends on the extracted value).  Status, confidence, flags, detected
objects and context match follow the keyword branches of the source. -/
def parseGeminiVerificationResponse (analysisText imageUrl : String)
    (extractedScore : Option ℚ) (now : Int) : VerificationResult :=
  let authenticityScore := extractedScore.getD (7 / 10)
  let lowerText := jsToLower analysisText
  let isFake := authenticityScore < 4 / 10
    || jsIncludes lowerText "manipulated"
    || jsIncludes lowerText "edited"
    || jsIncludes lowerText "fake"
  let isSuspicious := authenticityScore < 7 / 10
    || jsIncludes lowerText "suspicious"
    || jsIncludes lowerText "uncertain"
  let status := if isFake then "fake" else if isSuspicious then "suspicious" else "authentic"
  let baseConfidence := if isFake then "high" else "medium"
  let flags : List String :=
    if isFake then ["manipulation_detected"]
    else if isSuspicious then ["requires_review"] else []
  let confidence :=
    if jsIncludes lowerText "high confidence" || jsIncludes lowerText "very confident" then
      "high"
    else if jsIncludes lowerText "low confidence" || jsIncludes lowerText "uncertain" then
      "low"
    else baseConfidence
  { image_url := imageUrl
    authenticity_score := min (max authenticityScore 0) 1
    status := status
    analysis := analysisText
    confidence := confidence
    flags := flags
    detected_objects := commonObjects.filter (fun obj => jsIncludes lowerText obj)
    context_match := disasterKeywords.any (fun keyword => jsIncludes lowerText keyword)
    verified_at := now
    verification_method := some "gemini_vision" }

/-- How one `verifyImageWithGemini(url)` call resolves: no API key
configured, a thrown fetch/model error (both fall back to the mock result),
or a model reply with its analysis text and the regex-extracted score. -/
inductive GeminiOutcome where
  | noKey
  | requestError
  | ok (analysisText : String) (extractedScore : Option ℚ)

/-- `verifyImageWithGemini(imageUrl)` as a function of its outcome. -/
def verifyImageWithGemini (imageUrl : String) (outcome : GeminiOutcome)
    (now : Int) : VerificationResult :=
  match outcome with
  | .noKey => getMockVerificationResult imageUrl now
  | .requestError => getMockVerificationResult imageUrl now
  | .ok analysisText extractedScore =>
    parseGeminiVerificationResponse analysisText imageUrl extractedScore now

/-- The `summary` object of the bulk endpoint.  With an empty request list
the average is `0/0`, `NaN` in the source and 0 here; no claim touches it. -/
structure BulkSummary where
  total_verified : Nat
  authentic : Nat
  suspicious : Nat
  fake : Nat
  average_authenticity_score : ℚ
  high_confidence : Nat
deriving DecidableEq

/-- The bulk endpoint either rejects with a 4xx error or returns the
verification list plus summary. -/
inductive BulkResponse where
  | clientError (statusCode : Nat) (error : String)
  | okResponse (verifications : List VerificationResult) (summary : BulkSummary)
deriving DecidableEq

/-- POST /disasters/:id/verify-images.  `image_urls` is `none` when the body
field is missing or not an array.  Checks run in source order: array check,
the greater-than-10 rejection, per-URL `new URL` validation (`urlValid`
abstracts the WHATWG URL parser), and only then the per-URL work: take the
cached result if present, otherwise verify and cache.  Cache writes do not
affect the response and are not threaded. -/
def bulkVerifyImages (image_urls : Option (List String))
    (urlValid : String → Bool) (cached : String → Option VerificationResult)
    (outcome : String → GeminiOutcome) (now : Int) : BulkResponse :=
  match image_urls with
  | none => .clientError 400 "Missing required field"
  | some urls =>
    if urls.length > 10 then .clientError 400 "Too many images"
    else if !(urls.all urlValid) then .clientError 400 "Invalid URL"
    else
      let results := urls.map (fun url =>
        match cached url with
        | some r => r
        | none => verifyImageWithGemini url (outcome url) now)
      .okResponse results
        { total_verified := results.length
          authentic := results.countP (fun r => r.status == "authentic")
          suspicious := results.countP (fun r => r.status == "suspicious")
          fake := results.countP (fun r => r.status == "fake")
          average_authenticity_score :=
            (results.foldl (fun s r => s + r.authenticity_score) 0) / results.length
          high_confidence := results.countP (fun r => r.confidence == "high") }

end Verification

/-! ## Concrete fixtures used by counterexample and witness statements -/

/-- A distance function with two values, 1.004 km and 1.001 km, that round
to the same `distance_km` (1.00): any stable sort keyed on the rounded
distance can leave such items in decreasing order of exact distance. -/
def tieDist : ℚ → ℚ → ℚ → ℚ → ℚ :=
  fun _ _ rLat _ => if rLat = 1 then 1004 / 1000 else 1001 / 1000

/-- A resource at longitude 0, latitude 1 (exact `tieDist` distance 1.004). -/
def tieResA : GeoResource := ⟨"a", some (0, 1)⟩

/-- A resource at longitude 0, latitude 2 (exact `tieDist` distance 1.001). -/
def tieResB : GeoResource := ⟨"b", some (0, 2)⟩

/-! ## Theorems -/

/-- C1 (amended): the read path of the cache checks and evicts — a value is
never returned once its expiry timestamp has strictly passed, a
present-but-expired entry is deleted as a side effect of the read, any value
returned was unexpired at read time, and a `get` strictly more than `ttl`
seconds after the corresponding `set` reports absence.  (At exactly `ttl`
elapsed seconds the entry is still returned; see the counterexample.) -/
theorem cache_expiry_check_and_evict {α : Type} (st : CacheStore α) (key : String)
    (now t0 : Int) (v : α) (ttl d : Nat) (e : CacheEntry α) :
    (st key = some e → e.expires_at < now →
      (CacheService.get st key now false false).1 = none
        ∧ (CacheService.get st key now false false).2 key = none)
  ∧ (∀ w, (CacheService.get st key now false false).1 = some w →
      ∃ e2, st key = some e2 ∧ now ≤ e2.expires_at ∧ e2.value = w)
  ∧ (ttl ≠ 0 → t0 + (ttl : Int) * 1000 < now →
      (CacheService.get ((CacheService.set st key v ttl d t0 false).2) key now
        false false).1 = none) := by
  refine ⟨?_, ?_, ?_⟩
  · intro hk hexp
    simp [CacheService.get, hk, hexp]
  · intro w hw
    unfold CacheService.get at hw
    cases hk : st key with
    | none => simp [hk] at hw
    | some e2 =>
      simp only [hk, Bool.false_eq_true, if_false] at hw
      by_cases hexp : e2.expires_at < now
      · simp [hexp] at hw
      · simp [hexp] at hw
        exact ⟨e2, rfl, not_lt.mp hexp, hw⟩
  · intro httl hlt
    simp [CacheService.set, CacheService.get, httl, hlt]

/-- C1 counterexample: `set("k", 42, ttl = 1)` at time 0 followed by a read
at time 1000 ms — exactly `ttl` seconds later, so real time `≥ ttl` has
elapsed — still returns the stored value, because the expiry comparison is
strict. -/
theorem cache_returns_value_at_exact_ttl :
    ((1 : Int) * 1000 ≤ 1000 - 0)
  ∧ (CacheService.get ((CacheService.set (fun _ => (none : Option (CacheEntry Nat)))
      "k" 42 1 3600 0 false).2) "k" 1000 false false).1 = some 42 :=
  ⟨by norm_num, by decide⟩

/-- C1 witness: a read strictly after expiry (1001 ms after a 1-second
`set`) reports absence. -/
theorem cache_expiry_check_and_evict_witness :
    (CacheService.get ((CacheService.set (fun _ => (none : Option (CacheEntry Nat)))
      "k" 7 1 3600 0 false).2) "k" 1001 false false).1 = none :=
  (cache_expiry_check_and_evict (fun _ => none) "k" 1001 0 7 1 3600 ⟨7, 0⟩).2.2
    (by decide) (by decide)

/-- C7: a store error during a cache operation is swallowed: `get` under a
store error returns the same absence as a miss on an empty table and `set`
under a store error completes, reporting failure only through its boolean
result and leaving the table unchanged. -/
theorem cache_store_error_swallowed {α : Type} (st : CacheStore α) (key : String)
    (now : Int) (v : α) (ttl d : Nat) (df : Bool) :
    (CacheService.get st key now true df).1 = none
  ∧ (CacheService.get st key now true df).1
      = (CacheService.get (fun _ => none) key now false false).1
  ∧ (CacheService.set st key v ttl d now true).1 = false
  ∧ (CacheService.set st key v ttl d now true).2 = st :=
  ⟨rfl, rfl, rfl, rfl⟩

/-- C8: `set(K, V, ttl)` with positive `ttl` followed immediately (same
`now`, no intervening operation) by `get(K)` returns `V` unchanged. -/
theorem cache_set_then_get_roundtrip {α : Type} (st : CacheStore α)
    (key : String) (v : α) (ttl d : Nat) (now : Int) (h : 0 < ttl) :
    (CacheService.get ((CacheService.set st key v ttl d now false).2) key now
      false false).1 = some v := by
  have hne : ttl ≠ 0 := Nat.pos_iff_ne_zero.mp h
  have hlt : ¬ (now + (ttl : Int) * 1000 < now) := by
    have : (0 : Int) ≤ (ttl : Int) * 1000 := by positivity
    omega
  simp [CacheService.set, CacheService.get, hne, hlt]

/-- C8 witness: the roundtrip at a concrete key, value and ttl. -/
theorem cache_set_then_get_roundtrip_witness :
    (CacheService.get ((CacheService.set (fun _ => (none : Option (CacheEntry Nat)))
      "k" 42 60 3600 5 false).2) "k" 5 false false).1 = some 42 :=
  cache_set_then_get_roundtrip (fun _ => none) "k" 42 60 3600 5 (by decide)

/-- C2 counterexample: the resource-creation endpoint on the
synthetic-fallback path (insert fails, mock payload substituted) completes
with HTTP success yet emits zero change events. -/
theorem resource_create_fallback_emits_no_event :
    isSuccess (ResourceRoutes.postResource "1"
      ⟨some "Shelter", some "NYC", some "shelter", none, none, none, none, none, none⟩
      "citizen1" .fail).1.status
  ∧ (ResourceRoutes.postResource "1"
      ⟨some "Shelter", some "NYC", some "shelter", none, none, none, none, none, none⟩
      "citizen1" .fail).1.events.length = 0 :=
  ⟨by decide, by decide⟩

/-- C2 (amended): every mutation handler that completes with HTTP success
emits exactly one change event whose action tag matches the operation —
except the resource-creation synthetic-fallback path, which reports success
but emits no event.  Disaster events are global broadcasts (not scoped to
the disaster room); resource events are scoped to the disaster room. -/
theorem mutation_event_emission (title location_name description : Option String)
    (insD : StoreResult Unit) (fetched : StoreResult DisasterOwnerInfo)
    (uid role : String) (updD delD : StoreResult Unit) (did : String)
    (b : ResourceRoutes.ResourceBody) (uidR : String) (insR updR : StoreResult Unit) :
    (isSuccess (DisasterRoutes.postDisaster title location_name description insD).status →
      (DisasterRoutes.postDisaster title location_name description insD).events
        = [⟨none, "disaster_updated", "create"⟩])
  ∧ (isSuccess (DisasterRoutes.putDisaster fetched uid role updD).status →
      (DisasterRoutes.putDisaster fetched uid role updD).events
        = [⟨none, "disaster_updated", "update"⟩])
  ∧ (isSuccess (DisasterRoutes.deleteDisaster delD).status →
      (DisasterRoutes.deleteDisaster delD).events
        = [⟨none, "disaster_updated", "delete"⟩])
  ∧ (isSuccess (ResourceRoutes.postResource did b uidR insR).1.status →
      (insR = .ok () → (ResourceRoutes.postResource did b uidR insR).1.events
        = [⟨some ("disaster_" ++ did), "resources_updated", "create"⟩])
      ∧ (insR = .fail → (ResourceRoutes.postResource did b uidR insR).1.events = []))
  ∧ (isSuccess (ResourceRoutes.putResource updR did).status →
      (ResourceRoutes.putResource updR did).events
        = [⟨some ("disaster_" ++ did), "resources_updated", "update"⟩]) := by
  refine ⟨?_, ?_, ?_, ?_, ?_⟩
  · unfold DisasterRoutes.postDisaster
    split_ifs with hb
    · intro h; simp [isSuccess] at h
    · cases insD <;> intro h <;> rfl
  · cases fetched with
    | fail => intro h; simp [DisasterRoutes.putDisaster, isSuccess] at h
    | ok existing =>
      by_cases hperm : existing.owner_id ≠ uid ∧ role ≠ "admin"
      · intro h
        simp [DisasterRoutes.putDisaster, hperm, isSuccess] at h
      · cases updD with
        | fail =>
          intro h
          simp [DisasterRoutes.putDisaster, hperm, isSuccess] at h
        | ok u =>
          intro h
          simp [DisasterRoutes.putDisaster, hperm]
  · cases delD with
    | fail => intro h; simp [DisasterRoutes.deleteDisaster, isSuccess] at h
    | ok u => intro h; rfl
  · unfold ResourceRoutes.postResource
    split_ifs with hb
    · intro h; simp [isSuccess] at h
    · cases insR with
      | ok u =>
        intro h
        exact ⟨fun _ => rfl, fun hc => by simp at hc⟩
      | fail =>
        intro h
        exact ⟨fun hc => by simp at hc, fun _ => rfl⟩
  · cases updR with
    | fail => intro h; simp [ResourceRoutes.putResource, isSuccess] at h
    | ok u => intro h; rfl

/-- C2 witness: one concrete success case per handler class, plus the
resource-create fallback emitting nothing. -/
theorem mutation_event_emission_witness :
    (DisasterRoutes.postDisaster (some "NYC Flood") (some "Manhattan") (some "Flooding") (.ok ())).events
      = [⟨none, "disaster_updated", "create"⟩]
  ∧ (DisasterRoutes.deleteDisaster (.ok ())).events = [⟨none, "disaster_updated", "delete"⟩]
  ∧ (ResourceRoutes.postResource "1"
      ⟨some "Shelter", some "NYC", some "shelter", none, none, none, none, none, none⟩
      "citizen1" .fail).1.events = [] :=
  ⟨(mutation_event_emission (some "NYC Flood") (some "Manhattan") (some "Flooding")
      (.ok ()) .fail "u" "contributor" .fail (.ok ()) "1"
      ⟨some "Shelter", some "NYC", some "shelter", none, none, none, none, none, none⟩
      "citizen1" .fail .fail).1 (by decide),
   (mutation_event_emission (some "NYC Flood") (some "Manhattan") (some "Flooding")
      (.ok ()) .fail "u" "contributor" .fail (.ok ()) "1"
      ⟨some "Shelter", some "NYC", some "shelter", none, none, none, none, none, none⟩
      "citizen1" .fail .fail).2.2.1 (by decide),
   ((mutation_event_emission (some "NYC Flood") (some "Manhattan") (some "Flooding")
      (.ok ()) .fail "u" "contributor" .fail (.ok ()) "1"
      ⟨some "Shelter", some "NYC", some "shelter", none, none, none, none, none, none⟩
      "citizen1" .fail .fail).2.2.2.1 (by decide)).2 rfl⟩

/-- C3 counterexample: the disaster-update endpoint, on a primary store
failure during the write, does not report success with a mock payload — it
returns HTTP 500 with no synthetic marker. -/
theorem disaster_update_store_failure_returns_500 :
    (DisasterRoutes.putDisaster (.ok ⟨"citizen1"⟩) "citizen1" "contributor" .fail).status = 500
  ∧ (DisasterRoutes.putDisaster (.ok ⟨"citizen1"⟩) "citizen1" "contributor" .fail).synthetic = false
  ∧ ¬ isSuccess (DisasterRoutes.putDisaster (.ok ⟨"citizen1"⟩) "citizen1" "contributor" .fail).status := by
  decide

/-- C3 (amended): only the two creation endpoints swallow a primary-store
failure and report HTTP success with a synthetic mock payload; the
update and delete endpoints surface the failure instead (disaster update:
500, disaster delete: 404, resource update: 404), with no mock payload. -/
theorem primary_failure_fallback_by_endpoint
    (title location_name description : Option String)
    (hvalid : (jsTruthy title && jsTruthy location_name && jsTruthy description) = true)
    (o : DisasterOwnerInfo) (uid role : String)
    (hauth : o.owner_id = uid ∨ role = "admin")
    (did : String) (b : ResourceRoutes.ResourceBody) (uidR : String)
    (hb : (jsTruthy b.name && jsTruthy b.location_name && jsTruthy b.rtype) = true) :
    ((DisasterRoutes.postDisaster title location_name description .fail).status = 201
      ∧ (DisasterRoutes.postDisaster title location_name description .fail).synthetic = true)
  ∧ ((ResourceRoutes.postResource did b uidR .fail).1.status = 201
      ∧ (ResourceRoutes.postResource did b uidR .fail).1.synthetic = true)
  ∧ ((DisasterRoutes.putDisaster (.ok o) uid role .fail).status = 500
      ∧ (DisasterRoutes.putDisaster (.ok o) uid role .fail).synthetic = false)
  ∧ (DisasterRoutes.deleteDisaster .fail).status = 404
  ∧ (ResourceRoutes.putResource .fail did).status = 404 := by
  refine ⟨?_, ?_, ?_, rfl, rfl⟩
  · simp [DisasterRoutes.postDisaster, hvalid]
  · simp [ResourceRoutes.postResource, hb]
  · have hcond : ¬(o.owner_id ≠ uid ∧ role ≠ "admin") := by
      rcases hauth with h | h
      · intro hc; exact hc.1 h
      · intro hc; exact hc.2 h
    simp [DisasterRoutes.putDisaster, hcond]

/-- C3 witness: the create fallback reports 201 synthetic while the update
failure reports 500, at concrete requests. -/
theorem primary_failure_fallback_by_endpoint_witness :
    (DisasterRoutes.postDisaster (some "NYC Flood") (some "Manhattan") (some "Flooding") .fail).status = 201
  ∧ (DisasterRoutes.putDisaster (.ok ⟨"u1"⟩) "u1" "contributor" .fail).status = 500 :=
  ⟨(primary_failure_fallback_by_endpoint (some "NYC Flood") (some "Manhattan")
      (some "Flooding") (by decide) ⟨"u1"⟩ "u1" "contributor" (Or.inl rfl) "1"
      ⟨some "Shelter", some "NYC", some "shelter", none, none, none, none, none, none⟩
      "citizen1" (by decide)).1.1,
   (primary_failure_fallback_by_endpoint (some "NYC Flood") (some "Manhattan")
      (some "Flooding") (by decide) ⟨"u1"⟩ "u1" "contributor" (Or.inl rfl) "1"
      ⟨some "Shelter", some "NYC", some "shelter", none, none, none, none, none, none⟩
      "citizen1" (by decide)).2.2.1.1⟩

/-- C4 (amended): for every distance function — the haversine included —
every item returned by the in-process proximity filter comes from the input
list, has (unrounded) distance at most the radius, carries that distance
rounded to two decimals as its `distance_km`, and the returned list is
sorted non-decreasing in `distance_km`.  Exact distances are therefore
non-decreasing up to the 0.01 km rounding granularity, but not pointwise
(see the counterexample). -/
theorem proximity_filter_and_sort (dist : ℚ → ℚ → ℚ → ℚ → ℚ)
    (resources : List GeoResource) (lat lng radiusKm : ℚ) :
    (∀ p ∈ ResourceRoutes.filterResourcesByDistance dist resources lat lng radiusKm,
      p.1 ∈ resources ∧ ∃ cLng cLat, p.1.location = some (cLng, cLat)
        ∧ dist lat lng cLat cLng ≤ radiusKm
        ∧ p.2 = round2 (dist lat lng cLat cLng))
  ∧ List.Sorted (fun u v : GeoResource × ℚ => u.2 ≤ v.2)
      (ResourceRoutes.filterResourcesByDistance dist resources lat lng radiusKm) := by
  constructor
  · intro p hp
    unfold ResourceRoutes.filterResourcesByDistance at hp
    rw [List.mem_insertionSort, List.mem_filterMap] at hp
    obtain ⟨r, hr, hf⟩ := hp
    cases hloc : r.location with
    | none => rw [hloc] at hf; simp at hf
    | some coords =>
      rw [hloc] at hf
      dsimp only at hf
      by_cases hd : dist lat lng coords.2 coords.1 ≤ radiusKm
      · rw [if_pos hd] at hf
        obtain rfl : (r, round2 (dist lat lng coords.2 coords.1)) = p :=
          Option.some.inj hf
        exact ⟨hr, coords.1, coords.2, by rw [hloc], hd, rfl⟩
      · rw [if_neg hd] at hf
        simp at hf
  · unfold ResourceRoutes.filterResourcesByDistance
    haveI : IsTotal (GeoResource × ℚ) (fun u v => u.2 ≤ v.2) :=
      ⟨fun a b => le_total a.2 b.2⟩
    haveI : IsTrans (GeoResource × ℚ) (fun u v => u.2 ≤ v.2) :=
      ⟨fun _ _ _ hab hbc => le_trans hab hbc⟩
    exact List.sorted_insertionSort _ _

/-- Evaluation of the proximity filter on the rounding-tie fixture: both
exact distances (1.004 km and 1.001 km) round to a `distance_km` of 1.00,
and the stable sort keeps the input order. -/
theorem tieFilterEval :
    ResourceRoutes.filterResourcesByDistance tieDist [tieResA, tieResB] 0 0 5
      = [(tieResA, 1), (tieResB, 1)] := by
  unfold ResourceRoutes.filterResourcesByDistance tieDist tieResA tieResB
  simp only [List.filterMap_cons, List.filterMap_nil]
  norm_num [round2, round_eq, List.insertionSort, List.orderedInsert]

/-- C4 counterexample: with a distance function producing 1.004 km and
1.001 km — both rounding to the reported `distance_km` of 1.00 — the filter
returns the 1.004 km item before the 1.001 km item, so the result is not
sorted non-decreasing by exact distance from the center. -/
theorem proximity_sort_exact_distance_violated :
    ¬ List.Sorted (fun u v : GeoResource × ℚ =>
        tieDist 0 0 (u.1.location.getD (0, 0)).2 (u.1.location.getD (0, 0)).1
          ≤ tieDist 0 0 (v.1.location.getD (0, 0)).2 (v.1.location.getD (0, 0)).1)
      (ResourceRoutes.filterResourcesByDistance tieDist [tieResA, tieResB] 0 0 5) := by
  intro h
  rw [tieFilterEval] at h
  have h12 := List.rel_of_sorted_cons h (tieResB, 1) (by simp)
  norm_num [tieDist, tieResA, tieResB] at h12

/-- C4 witness: at a concrete query the returned head item is in range with
the rounded distance recorded, and the whole result is sorted by
`distance_km`. -/
theorem proximity_filter_and_sort_witness :
    (∃ cLng cLat, (tieResA, (1 : ℚ)).1.location = some (cLng, cLat)
      ∧ tieDist 0 0 cLat cLng ≤ 5
      ∧ ((tieResA, (1 : ℚ)).2 = round2 (tieDist 0 0 cLat cLng)))
  ∧ List.Sorted (fun u v : GeoResource × ℚ => u.2 ≤ v.2)
      (ResourceRoutes.filterResourcesByDistance tieDist [tieResA, tieResB] 0 0 5) :=
  ⟨((proximity_filter_and_sort tieDist [tieResA, tieResB] 0 0 5).1
      (tieResA, 1) (by rw [tieFilterEval]; simp)).2,
   (proximity_filter_and_sort tieDist [tieResA, tieResB] 0 0 5).2⟩

/-- C5: the priority classifier is a pure total function into the four
ordinal levels, and any text containing a critical keyword
(case-insensitively) classifies as critical, whatever lower-tier keywords
co-occur. -/
theorem determinePriority_critical_precedence (content : String) :
    (SocialMedia.determinePriority content = "critical"
      ∨ SocialMedia.determinePriority content = "high"
      ∨ SocialMedia.determinePriority content = "normal"
      ∨ SocialMedia.determinePriority content = "low")
  ∧ ((∃ k ∈ SocialMedia.criticalKeywords,
        jsIncludes (jsToLower content) k = true) →
      SocialMedia.determinePriority content = "critical") := by
  constructor
  · unfold SocialMedia.determinePriority
    dsimp only
    split_ifs <;> simp
  · rintro ⟨k, hk, hinc⟩
    unfold SocialMedia.determinePriority
    have hany : SocialMedia.criticalKeywords.any
        (fun keyword => jsIncludes (jsToLower content) keyword) = true := by
      rw [List.any_eq_true]
      exact ⟨k, hk, hinc⟩
    simp [hany]

/-- C5 witness: the example from the specification — text containing the
critical keyword sos and the normal keyword shelter classifies critical. -/
theorem determinePriority_critical_precedence_witness :
    SocialMedia.determinePriority "SOS, need shelter" = "critical" :=
  (determinePriority_critical_precedence "SOS, need shelter").2
    ⟨"sos", by decide, by decide⟩

/-- C9: the mock image-verification result is deterministic in the URL —
two computations at different times agree on every field except
`verified_at`. -/
theorem mock_verification_deterministic (url : String) (t1 t2 : Int) :
    (Verification.getMockVerificationResult url t1).status
      = (Verification.getMockVerificationResult url t2).status
  ∧ (Verification.getMockVerificationResult url t1).authenticity_score
      = (Verification.getMockVerificationResult url t2).authenticity_score
  ∧ (Verification.getMockVerificationResult url t1).analysis
      = (Verification.getMockVerificationResult url t2).analysis
  ∧ (Verification.getMockVerificationResult url t1).confidence
      = (Verification.getMockVerificationResult url t2).confidence
  ∧ (Verification.getMockVerificationResult url t1).flags
      = (Verification.getMockVerificationResult url t2).flags
  ∧ (Verification.getMockVerificationResult url t1).detected_objects
      = (Verification.getMockVerificationResult url t2).detected_objects
  ∧ (Verification.getMockVerificationResult url t1).context_match
      = (Verification.getMockVerificationResult url t2).context_match
  ∧ (Verification.getMockVerificationResult url t1).image_url
      = (Verification.getMockVerificationResult url t2).image_url
  ∧ { Verification.getMockVerificationResult url t1 with verified_at := 0 }
      = { Verification.getMockVerificationResult url t2 with verified_at := 0 } :=
  ⟨rfl, rfl, rfl, rfl, rfl, rfl, rfl, rfl, rfl⟩

/-- C10: every resource row the creation endpoint produces — on the primary
path and on the mock-fallback path alike — starts with `current_occupancy`
0 and status active, whatever occupancy or status the request body
supplied. -/
theorem resource_create_initial_state (disasterId : String)
    (b : ResourceRoutes.ResourceBody) (userId : String)
    (insert : StoreResult Unit) (row : ResourceRoutes.ResourceRow)
    (h : (ResourceRoutes.postResource disasterId b userId insert).2 = some row) :
    row.current_occupancy = 0 ∧ row.status = "active" := by
  cases insert with
  | ok u =>
    unfold ResourceRoutes.postResource at h
    split_ifs at h with hb
    dsimp only at h
    simp only [Option.some.injEq] at h
    rw [← h]
    exact ⟨rfl, rfl⟩
  | fail =>
    unfold ResourceRoutes.postResource at h
    split_ifs at h with hb
    dsimp only at h
    simp only [Option.some.injEq] at h
    rw [← h]
    exact ⟨rfl, rfl⟩

/-- C10 witness: a request body that tries to set occupancy 99 and a closed
status still yields a row with occupancy 0 and active status (here on the
fallback path). -/
theorem resource_create_initial_state_witness :
    ∃ row, (ResourceRoutes.postResource "1"
        ⟨some "Shelter", some "NYC", some "shelter", some 5, some "call",
          some ["wifi"], none, some 99, some "closed"⟩ "citizen1" .fail).2
        = some row
      ∧ row.current_occupancy = 0 ∧ row.status = "active" := by
  refine ⟨_, rfl, ?_⟩
  exact resource_create_initial_state "1"
    ⟨some "Shelter", some "NYC", some "shelter", some 5, some "call",
      some ["wifi"], none, some 99, some "closed"⟩ "citizen1" .fail _ rfl

/-- Every fixture the mock verifier can select has one of the three
verification statuses. -/
theorem getMock_status_mem (url : String) (now : Int) :
    (Verification.getMockVerificationResult url now).status
      ∈ (["authentic", "suspicious", "fake"] : List String) := by
  unfold Verification.getMockVerificationResult
  dsimp only
  rcases hi : (Verification.jsHash url).natAbs % Verification.mockVerificationResults.length
    with _ | _ | _ | n <;>
    simp [Verification.mockVerificationResults, Verification.mockFixture0,
      Verification.mockFixture1, Verification.mockFixture2]

/-- The parsed Gemini response always has one of the three verification
statuses. -/
theorem parse_status_mem (analysisText imageUrl : String) (sc : Option ℚ)
    (now : Int) :
    (Verification.parseGeminiVerificationResponse analysisText imageUrl sc now).status
      ∈ (["authentic", "suspicious", "fake"] : List String) := by
  unfold Verification.parseGeminiVerificationResponse
  dsimp only
  split_ifs <;> simp

/-- Every result `verifyImageWithGemini` can produce has one of the three
verification statuses. -/
theorem verify_status_mem (url : String) (o : Verification.GeminiOutcome)
    (now : Int) :
    (Verification.verifyImageWithGemini url o now).status
      ∈ (["authentic", "suspicious", "fake"] : List String) := by
  cases o with
  | noKey => exact getMock_status_mem url now
  | requestError => exact getMock_status_mem url now
  | ok t sc => exact parse_status_mem t url sc now

/-- When every element carries one of the three statuses, the three status
counts partition the list. -/
theorem countP_three_statuses (l : List Verification.VerificationResult)
    (h : ∀ r ∈ l, r.status ∈ (["authentic", "suspicious", "fake"] : List String)) :
    l.countP (fun r => r.status == "authentic")
      + l.countP (fun r => r.status == "suspicious")
      + l.countP (fun r => r.status == "fake") = l.length := by
  induction l with
  | nil => simp
  | cons a t ih =>
    have ha := h a (List.mem_cons_self a t)
    have iht := ih (fun r hr => h r (List.mem_cons_of_mem a hr))
    simp only [List.countP_cons, List.length_cons]
    simp only [List.mem_cons, List.mem_singleton, List.not_mem_nil, or_false] at ha
    rcases ha with h1 | h1 | h1 <;> simp [h1] <;> omega

/-- C6: a bulk-verification request with at most 10 valid URLs (where any
cached result is itself a previous verification output) yields exactly one
result per URL, each with status authentic, suspicious or fake, and the
three summary counts sum to the number of URLs; a request with more than 10
URLs is rejected with status 400 and no verification list. -/
theorem bulk_verification_counts (urls : List String)
    (urlValid : String → Bool)
    (cached : String → Option Verification.VerificationResult)
    (outcome : String → Verification.GeminiOutcome) (now : Int) :
    (urls.length ≤ 10 → urls.all urlValid = true →
      (∀ u r, cached u = some r →
        ∃ u2 o2 n2, r = Verification.verifyImageWithGemini u2 o2 n2) →
      ∃ vs s, Verification.bulkVerifyImages (some urls) urlValid cached outcome now
          = .okResponse vs s
        ∧ vs.length = urls.length
        ∧ (∀ r ∈ vs, r.status ∈ (["authentic", "suspicious", "fake"] : List String))
        ∧ s.authentic + s.suspicious + s.fake = urls.length)
  ∧ (urls.length > 10 →
      Verification.bulkVerifyImages (some urls) urlValid cached outcome now
        = .clientError 400 "Too many images") := by
  constructor
  · intro h10 hvalid hcache
    have hmem : ∀ r ∈ urls.map (fun url =>
        match cached url with
        | some r => r
        | none => Verification.verifyImageWithGemini url (outcome url) now),
        r.status ∈ (["authentic", "suspicious", "fake"] : List String) := by
      intro r hr
      rw [List.mem_map] at hr
      obtain ⟨u, hu, heq⟩ := hr
      cases hcu : cached u with
      | some rc =>
        rw [hcu] at heq
        obtain ⟨u2, o2, n2, hrc⟩ := hcache u rc hcu
        rw [← heq, hrc]
        exact verify_status_mem u2 o2 n2
      | none =>
        rw [hcu] at heq
        rw [← heq]
        exact verify_status_mem u (outcome u) now
    unfold Verification.bulkVerifyImages
    dsimp only
    rw [if_neg (show ¬ urls.length > 10 by omega)]
    rw [if_neg (show ¬ (!urls.all urlValid) = true by simp [hvalid])]
    refine ⟨_, _, rfl, by simp, hmem, ?_⟩
    exact (countP_three_statuses _ hmem).trans (by simp)
  · intro h10
    unfold Verification.bulkVerifyImages
    dsimp only
    rw [if_pos h10]

/-- C6 witness: two mock-path verifications of concrete URLs give two
results with statuses in range and summary counts summing to two. -/
theorem bulk_verification_counts_witness :
    ∃ vs s, Verification.bulkVerifyImages (some ["http://a.jpg", "http://b.jpg"])
        (fun _ => true) (fun _ => none) (fun _ => .noKey) 0 = .okResponse vs s
      ∧ vs.length = 2
      ∧ (∀ r ∈ vs, r.status ∈ (["authentic", "suspicious", "fake"] : List String))
      ∧ s.authentic + s.suspicious + s.fake = 2 :=
  (bulk_verification_counts ["http://a.jpg", "http://b.jpg"] (fun _ => true)
      (fun _ => none) (fun _ => .noKey) 0).1 (by decide) (by decide)
    (fun u r h => Option.noConfusion h)
